import Mathlib

/-!
Verification development for the section-properties analysis engine.

The repository ships the analysis engine behind tutorial notebooks
(src/docs/examples); the engine itself (Section, Material, the property
accessors and the stage functions) is not part of the visible sources.
The definitions below are therefore modelled from the specification
(spec.md sections 3, 4, 6 and 7), with the notebooks taken as the
authority wherever they document concrete behaviour (e.g. the cells
tagged raises-exception in composite_analysis.ipynb and the meshing
warnings in advanced_geometry.ipynb).

All machine arithmetic is modelled over the rationals; the source uses
floating point, and every algebraic identity proved here is the exact
counterpart of an identity the spec asserts "within floating-point
tolerance".
-/

/-- Modelled from the spec (section 3): immutable material record
{name, elastic_modulus E, poissons ratio nu, density rho, yield_strength fy,
display color}. -/
structure Material where
  name : String
  elastic_modulus : ℚ
  nu : ℚ
  density : ℚ
  yield_strength : ℚ
  color : String
deriving DecidableEq, Repr

/-- Modelled from the spec (section 3): the reserved default material has
E = 1, nu = 0, fy = 1, density = 1 and marks geometric-only analysis. -/
def DEFAULT_MATERIAL : Material :=
  { name := "default", elastic_modulus := 1, nu := 0, density := 1,
    yield_strength := 1, color := "w" }

/-- Modelled from the spec (section 3): a mesh element is a node-index
tuple carrying one material. -/
structure Element where
  n1 : ℕ
  n2 : ℕ
  n3 : ℕ
  material : Material
deriving DecidableEq, Repr

/-- Modelled from the spec (section 3): ordered sequence of 2D nodes and
ordered sequence of elements. -/
structure Mesh where
  nodes : List (ℚ × ℚ)
  elements : List Element
deriving DecidableEq, Repr

/-- Coordinate lookup for a node index (out-of-range reads the origin;
a valid mesh never indexes out of range). -/
def Mesh.node (m : Mesh) (i : ℕ) : ℚ × ℚ :=
  m.nodes.getD i (0, 0)

/-- Twice the signed area of the triangle of an element. -/
def Mesh.det (m : Mesh) (e : Element) : ℚ :=
  ((m.node e.n2).1 - (m.node e.n1).1) * ((m.node e.n3).2 - (m.node e.n1).2)
    - ((m.node e.n3).1 - (m.node e.n1).1) * ((m.node e.n2).2 - (m.node e.n1).2)

/-- Element area (absolute value of half the determinant). -/
def Mesh.elArea (m : Mesh) (e : Element) : ℚ :=
  |m.det e| / 2

/-- Exact integral of x over the element triangle (fixed-order quadrature
exact for quadratic shape functions, spec section 4.1). -/
def Mesh.elIntX (m : Mesh) (e : Element) : ℚ :=
  m.elArea e * ((m.node e.n1).1 + (m.node e.n2).1 + (m.node e.n3).1) / 3

/-- Exact integral of y over the element triangle. -/
def Mesh.elIntY (m : Mesh) (e : Element) : ℚ :=
  m.elArea e * ((m.node e.n1).2 + (m.node e.n2).2 + (m.node e.n3).2) / 3

/-- Exact integral of x^2 over the element triangle. -/
def Mesh.elIntXX (m : Mesh) (e : Element) : ℚ :=
  m.elArea e *
    ((m.node e.n1).1 ^ 2 + (m.node e.n2).1 ^ 2 + (m.node e.n3).1 ^ 2
      + (m.node e.n1).1 * (m.node e.n2).1
      + (m.node e.n2).1 * (m.node e.n3).1
      + (m.node e.n1).1 * (m.node e.n3).1) / 6

/-- Exact integral of y^2 over the element triangle. -/
def Mesh.elIntYY (m : Mesh) (e : Element) : ℚ :=
  m.elArea e *
    ((m.node e.n1).2 ^ 2 + (m.node e.n2).2 ^ 2 + (m.node e.n3).2 ^ 2
      + (m.node e.n1).2 * (m.node e.n2).2
      + (m.node e.n2).2 * (m.node e.n3).2
      + (m.node e.n1).2 * (m.node e.n3).2) / 6

/-- Exact integral of x*y over the element triangle. -/
def Mesh.elIntXY (m : Mesh) (e : Element) : ℚ :=
  m.elArea e *
    (2 * (m.node e.n1).1 * (m.node e.n1).2
      + 2 * (m.node e.n2).1 * (m.node e.n2).2
      + 2 * (m.node e.n3).1 * (m.node e.n3).2
      + (m.node e.n1).1 * (m.node e.n2).2 + (m.node e.n2).1 * (m.node e.n1).2
      + (m.node e.n2).1 * (m.node e.n3).2 + (m.node e.n3).1 * (m.node e.n2).2
      + (m.node e.n1).1 * (m.node e.n3).2 + (m.node e.n3).1 * (m.node e.n1).2) / 12

/-- Modulus-weighted area A_w = sum over elements of E * dA
(spec section 4.1). -/
def Mesh.ea (m : Mesh) : ℚ :=
  (m.elements.map (fun e => e.material.elastic_modulus * m.elArea e)).sum

/-- Weighted first moment Q_x = sum of E * y * dA. -/
def Mesh.eqx (m : Mesh) : ℚ :=
  (m.elements.map (fun e => e.material.elastic_modulus * m.elIntY e)).sum

/-- Weighted first moment Q_y = sum of E * x * dA. -/
def Mesh.eqy (m : Mesh) : ℚ :=
  (m.elements.map (fun e => e.material.elastic_modulus * m.elIntX e)).sum

/-- Centroid x coordinate x_c = Q_y / A_w (spec section 4.1). -/
def Mesh.cx (m : Mesh) : ℚ := m.eqy / m.ea

/-- Centroid y coordinate y_c = Q_x / A_w. -/
def Mesh.cy (m : Mesh) : ℚ := m.eqx / m.ea

/-- Weighted second moment about the global x axis, E * y^2 * dA. -/
def Mesh.eixxG (m : Mesh) : ℚ :=
  (m.elements.map (fun e => e.material.elastic_modulus * m.elIntYY e)).sum

/-- Weighted second moment about the global y axis, E * x^2 * dA. -/
def Mesh.eiyyG (m : Mesh) : ℚ :=
  (m.elements.map (fun e => e.material.elastic_modulus * m.elIntXX e)).sum

/-- Weighted product moment about the global axes, E * x * y * dA. -/
def Mesh.eixyG (m : Mesh) : ℚ :=
  (m.elements.map (fun e => e.material.elastic_modulus * m.elIntXY e)).sum

/-- Centroidal second moments by parallel-axis subtraction
(spec section 4.1). -/
def Mesh.eixxC (m : Mesh) : ℚ := m.eixxG - m.ea * m.cy ^ 2

/-- Centroidal second moment about y. -/
def Mesh.eiyyC (m : Mesh) : ℚ := m.eiyyG - m.ea * m.cx ^ 2

/-- Centroidal product moment. -/
def Mesh.eixyC (m : Mesh) : ℚ := m.eixyG - m.ea * m.cx * m.cy

/-- Modelled from the notebooks (composite_analysis cells 7-10): the
analysis is composite as soon as any element carries a material other
than the default material. Note the spec (section 3) instead words the
invariant as "more than one distinct Material"; the notebook shows that
a single non-default material already makes the analysis composite. -/
def is_composite (m : Mesh) : Bool :=
  m.elements.any (fun e => e.material ≠ DEFAULT_MATERIAL)

/-- Modelled from the spec (section 7): the error taxonomy of the
engine. -/
inductive SPError where
  | orderingError
  | compositeAmbiguityError
  | meshValidityError
  | numericalFailure
deriving DecidableEq, Repr

/-- Per-node output of the warping solver (gradient of the warping
function omega and of the two shear functions psi_x, psi_y); these are
the cached results of the external linear solves (spec section 4.2),
carried as data since the numeric solve is outside the visible corpus. -/
structure WarpGrad where
  wx : ℚ
  wy : ℚ
  pxx : ℚ
  pxy : ℚ
  pyx : ℚ
  pyy : ℚ
deriving DecidableEq, Repr

/-- Cached warping stage results: torsion constant J, shear scaling
denominator, and per-node solution gradients. -/
structure WarpSol where
  j : ℚ
  deltaS : ℚ
  grads : List WarpGrad
deriving DecidableEq, Repr

/-- Modelled from the spec (sections 3 and 6): the Section orchestrator
owns one mesh and tracks the lifecycle stages
Unmeshed, GeometricDone, WarpingDone, PlasticDone as guarded flags. -/
structure SectionState where
  mesh : Mesh
  warpSol : WarpSol
  geometricDone : Bool := false
  warpingDone : Bool := false
  plasticDone : Bool := false
deriving DecidableEq, Repr

/-- Modelled from the spec (section 6): calculate_geometric_properties
always succeeds, recomputes and replaces the geometric cache, and moves
the lifecycle to GeometricDone. -/
def calculate_geometric_properties (s : SectionState) : SectionState :=
  { s with geometricDone := true }

/-- Modelled from the spec (sections 4.2, 6, 7): the warping stage
requires GeometricDone; violating the precondition fails with an
ordering error, and a failed call leaves the state untouched (section 5:
a recomputation is replaced wholesale or discarded entirely). -/
def calculate_warping_properties (s : SectionState) :
    Except SPError Unit × SectionState :=
  if s.geometricDone then (Except.ok (), { s with warpingDone := true })
  else (Except.error SPError.orderingError, s)

/-- Modelled from the spec (sections 4.3, 6, 7): the plastic stage
requires GeometricDone; violating the precondition fails with an
ordering error, leaving the state untouched. -/
def calculate_plastic_properties (s : SectionState) :
    Except SPError Unit × SectionState :=
  if s.geometricDone then (Except.ok (), { s with plasticDone := true })
  else (Except.error SPError.orderingError, s)

/-- Modelled from the spec (sections 4.1, 6, 7): the modulus-weighted
second-moment accessor; requires the geometric stage, never restricted
by composite status. -/
def get_eic (s : SectionState) : Except SPError (ℚ × ℚ × ℚ) :=
  if s.geometricDone then
    Except.ok (s.mesh.eixxC, s.mesh.eiyyC, s.mesh.eixyC)
  else Except.error SPError.orderingError

/-- Modelled from the spec (section 4.1) and composite_analysis cell 12:
with a reference material every weighted second moment is divided by the
reference elastic modulus; always permitted regardless of composite
status. -/
def get_eic_ref (s : SectionState) (eRef : Material) :
    Except SPError (ℚ × ℚ × ℚ) :=
  if s.geometricDone then
    Except.ok (s.mesh.eixxC / eRef.elastic_modulus,
      s.mesh.eiyyC / eRef.elastic_modulus,
      s.mesh.eixyC / eRef.elastic_modulus)
  else Except.error SPError.orderingError

/-- Modelled from the spec (sections 4.1 and 7) and composite_analysis
cell 10: the plain (unweighted) accessor divides the weighted sums by a
unit reference modulus and is permitted only for non-composite sections;
on a composite section it fails with the composite-ambiguity error. -/
def get_ic (s : SectionState) : Except SPError (ℚ × ℚ × ℚ) :=
  if s.geometricDone then
    if is_composite s.mesh then Except.error SPError.compositeAmbiguityError
    else Except.ok (s.mesh.eixxC / 1, s.mesh.eiyyC / 1, s.mesh.eixyC / 1)
  else Except.error SPError.orderingError

/-- Modelled from the spec (section 4.4): a load case is six optional
generalized actions, default zero. -/
structure LoadCase where
  n : ℚ := 0
  mxx : ℚ := 0
  myy : ℚ := 0
  vx : ℚ := 0
  vy : ℚ := 0
  mzz : ℚ := 0
deriving DecidableEq, Repr

/-- Componentwise sum of two load cases. -/
def addLoad (a b : LoadCase) : LoadCase :=
  { n := a.n + b.n, mxx := a.mxx + b.mxx, myy := a.myy + b.myy,
    vx := a.vx + b.vx, vy := a.vy + b.vy, mzz := a.mzz + b.mzz }

/-- Modelled from the spec (section 4.4): the precondition split of a
load case; V_x, V_y or M_zz nonzero require WarpingDone. -/
def requiresWarping (lc : LoadCase) : Bool :=
  lc.vx ≠ 0 || lc.vy ≠ 0 || lc.mzz ≠ 0

/-- One per-node stress record: normal stress and the two shear
components. -/
structure StressRec where
  sigZZ : ℚ
  tauZX : ℚ
  tauZY : ℚ
deriving DecidableEq, Repr

/-- Componentwise sum of two stress records. -/
def addStress (a b : StressRec) : StressRec :=
  { sigZZ := a.sigZZ + b.sigZZ, tauZX := a.tauZX + b.tauZX,
    tauZY := a.tauZY + b.tauZY }

/-- Warping gradient lookup for a node index. -/
def WarpSol.grad (w : WarpSol) (i : ℕ) : WarpGrad :=
  w.grads.getD i { wx := 0, wy := 0, pxx := 0, pxy := 0, pyx := 0, pyy := 0 }

/-- Modelled from the spec (section 4.4): stress recovery at one node of
one material region. Axial sigma_N = N*E/A_w; bending
sigma_M = E*(M_xx*(y - y_c)/I_xx - M_yy*(x - x_c)/I_yy) with the
modulus-weighted centroidal second moments; torsion shear
G*(M_zz/J)*grad omega with G = E/(2*(1+nu)); transverse shear from the
shear-function gradients scaled by the applied shear and the local
modulus. -/
def nodeStress (s : SectionState) (lc : LoadCase) (mat : Material)
    (p : ℚ × ℚ) (g : WarpGrad) : StressRec :=
  { sigZZ := lc.n * mat.elastic_modulus / s.mesh.ea
      + mat.elastic_modulus *
        (lc.mxx * (p.2 - s.mesh.cy) / s.mesh.eixxC
          - lc.myy * (p.1 - s.mesh.cx) / s.mesh.eiyyC),
    tauZX := mat.elastic_modulus / (2 * (1 + mat.nu))
        * (lc.mzz / s.warpSol.j) * g.wx
      + (lc.vx * g.pxx + lc.vy * g.pyx)
        * mat.elastic_modulus / s.warpSol.deltaS,
    tauZY := mat.elastic_modulus / (2 * (1 + mat.nu))
        * (lc.mzz / s.warpSol.j) * g.wy
      + (lc.vx * g.pxy + lc.vy * g.pyy)
        * mat.elastic_modulus / s.warpSol.deltaS }

/-- The evaluation points of a stress field: each element contributes a
record at each of its three nodes (shared boundary nodes may carry
distinct values per adjoining material, spec section 4.4). -/
def Mesh.evalPoints (m : Mesh) : List (Material × ℕ) :=
  m.elements.flatMap (fun e =>
    [(e.material, e.n1), (e.material, e.n2), (e.material, e.n3)])

/-- Per-node stress field for a load case, one record per element node. -/
def stressField (s : SectionState) (lc : LoadCase) : List StressRec :=
  s.mesh.evalPoints.map (fun mi =>
    nodeStress s lc mi.1 (s.mesh.node mi.2) (s.warpSol.grad mi.2))

/-- Modelled from the spec (sections 4.4, 6, 7): calculate_stress first
enforces stage ordering — GeometricDone always, WarpingDone whenever the
load case has a shear or torsion component — then recovers the per-node
stress field. -/
def calculate_stress (s : SectionState) (lc : LoadCase) :
    Except SPError (List StressRec) :=
  if s.geometricDone then
    if requiresWarping lc && !s.warpingDone then
      Except.error SPError.orderingError
    else Except.ok (stressField s lc)
  else Except.error SPError.orderingError

/-- Cross product test used by the point-in-triangle search: the signed
area of (a, b, p). -/
def cross2 (a b p : ℚ × ℚ) : ℚ :=
  (b.1 - a.1) * (p.2 - a.2) - (b.2 - a.2) * (p.1 - a.1)

/-- Point-in-triangle search for one element (spec section 4.4): the
point lies in the element when all three edge cross products share a
sign. -/
def Mesh.containsPoint (m : Mesh) (e : Element) (p : ℚ × ℚ) : Bool :=
  let d1 := cross2 (m.node e.n1) (m.node e.n2) p
  let d2 := cross2 (m.node e.n2) (m.node e.n3) p
  let d3 := cross2 (m.node e.n3) (m.node e.n1) p
  (d1 ≥ 0 && d2 ≥ 0 && d3 ≥ 0) || (d1 ≤ 0 && d2 ≤ 0 && d3 ≤ 0)

/-- Barycentric shape-function interpolation of the three nodal stress
records of an element at a query point. -/
def interpStress (s : SectionState) (lc : LoadCase) (e : Element)
    (p : ℚ × ℚ) : StressRec :=
  let d := s.mesh.det e
  let l1 := cross2 (s.mesh.node e.n2) (s.mesh.node e.n3) p / d
  let l2 := cross2 (s.mesh.node e.n3) (s.mesh.node e.n1) p / d
  let l3 := cross2 (s.mesh.node e.n1) (s.mesh.node e.n2) p / d
  let r1 := nodeStress s lc e.material (s.mesh.node e.n1) (s.warpSol.grad e.n1)
  let r2 := nodeStress s lc e.material (s.mesh.node e.n2) (s.warpSol.grad e.n2)
  let r3 := nodeStress s lc e.material (s.mesh.node e.n3) (s.warpSol.grad e.n3)
  { sigZZ := l1 * r1.sigZZ + l2 * r2.sigZZ + l3 * r3.sigZZ,
    tauZX := l1 * r1.tauZX + l2 * r2.tauZX + l3 * r3.tauZX,
    tauZY := l1 * r1.tauZY + l2 * r2.tauZY + l3 * r3.tauZY }

/-- Modelled from the spec (section 4.4): sample one query point —
locate the containing element via point-in-triangle search across the
mesh, interpolate nodal stress via the shape functions; a point outside
every element yields a null result rather than an error. -/
def samplePoint (s : SectionState) (lc : LoadCase) (p : ℚ × ℚ) :
    Option StressRec :=
  (s.mesh.elements.find? (fun e => s.mesh.containsPoint e p)).map
    (fun e => interpStress s lc e p)

/-- Modelled from the spec (sections 4.4 and 6): get_stress_at_points
applies the same stage gating as calculate_stress and returns one stress
tuple or null per query point. -/
def get_stress_at_points (s : SectionState) (pts : List (ℚ × ℚ))
    (lc : LoadCase) : Except SPError (List (Option StressRec)) :=
  if s.geometricDone then
    if requiresWarping lc && !s.warpingDone then
      Except.error SPError.orderingError
    else Except.ok (pts.map (samplePoint s lc))
  else Except.error SPError.orderingError

/-- Modelled from advanced_geometry.ipynb (cells 28-39) and the spec
(section 6): the input handed to the external triangulator. Whether the
input is near-degenerate (features closer than the mesher's internal
tolerance without exactly coinciding, as in the rotated-squares example)
is recorded as a flag, since the mesher's internals are outside the
spec; the mesh the triangulator would produce on benign input is carried
alongside. -/
structure GeomInput where
  geomMesh : Mesh
  nearDegenerate : Bool
deriving DecidableEq, Repr

/-- Outcome of the meshing step: a mesh, a surfaced engine error, or an
uncontrolled crash of the external mesher (advanced_geometry cell 33:
"this may crash the kernel"). -/
inductive MeshOutcome where
  | ok (m : Mesh)
  | err (e : SPError)
  | kernelCrash
deriving DecidableEq, Repr

/-- Modelled from advanced_geometry.ipynb (cells 32-34): the external
CyTriangle mesher crashes uncontrolled on near-degenerate input, and
meshes it otherwise. -/
def cyTriangle (g : GeomInput) : MeshOutcome :=
  if g.nearDegenerate then MeshOutcome.kernelCrash
  else MeshOutcome.ok g.geomMesh

/-- Modelled from advanced_geometry.ipynb (cells 1 and 28-39): the
create_mesh call delegates straight to the external triangulator;
"sectionproperties will not prevent the creation of these ambiguous
sections" — no minimum-feature-separation validation runs before the
delegation, and the user must ensure the model is appropriate. -/
def create_mesh (g : GeomInput) : MeshOutcome :=
  cyTriangle g

/-- A planar triangle region. -/
structure Tri where
  a : ℚ × ℚ
  b : ℚ × ℚ
  c : ℚ × ℚ
deriving DecidableEq, Repr

/-- Membership of a point in a triangle (all edge cross products share a
sign). -/
def Tri.holds (t : Tri) (p : ℚ × ℚ) : Bool :=
  let d1 := cross2 t.a t.b p
  let d2 := cross2 t.b t.c p
  let d3 := cross2 t.c t.a p
  (d1 ≥ 0 && d2 ≥ 0 && d3 ≥ 0) || (d1 ≤ 0 && d2 ≤ 0 && d3 ≤ 0)

/-- Modelled from the spec (section 3): a Geometry is a single-material
planar region (represented as a union of triangles). -/
structure Geometry where
  region : List Tri
  material : Material
deriving DecidableEq, Repr

/-- Point membership in a geometry region. -/
def Geometry.covers (g : Geometry) (p : ℚ × ℚ) : Bool :=
  g.region.any (fun t => t.holds p)

/-- Modelled from advanced_geometry.ipynb (cells 14-15): the union
combinator merges the two regions and keeps the first operand's
material — "whichever section comes first in the operation will have
it's information preserved". -/
def geoUnion (g1 g2 : Geometry) : Geometry :=
  { region := g1.region ++ g2.region, material := g1.material }

/-- The material carried at a point of a geometry (null outside the
region). -/
def materialAt (g : Geometry) (p : ℚ × ℚ) : Option Material :=
  if g.covers p then some g.material else none

/-- Modelled from the spec (section 4.3): for bending about the x axis
the yield-force distribution of the section is a list of horizontal
strips, each spanning [y0, y1] with width w and material yield
strength fy; a mesh element contributes such a strip. -/
structure Strip where
  y0 : ℚ
  y1 : ℚ
  w : ℚ
  fy : ℚ
deriving DecidableEq, Repr

/-- Length of the part of [y0, y1] on the tension side (above) a trial
axis at offset c. -/
def lenAbove (y0 y1 c : ℚ) : ℚ := max c y1 - max c y0

/-- Length of the part of [y0, y1] below the trial axis. -/
def lenBelow (y0 y1 c : ℚ) : ℚ := min c y1 - min c y0

/-- First moment about the trial axis of the part of [y0, y1] above
it. -/
def momAbove (y0 y1 c : ℚ) : ℚ :=
  ((max c y1 - c) ^ 2 - (max c y0 - c) ^ 2) / 2

/-- First moment about the trial axis of the part of [y0, y1] below
it. -/
def momBelow (y0 y1 c : ℚ) : ℚ :=
  ((c - min c y0) ^ 2 - (c - min c y1) ^ 2) / 2

/-- Contribution of one strip to the axial-force residual R(c) =
fy * A_above(c) - fy * A_below(c) (spec section 4.3). -/
def stripResidual (s : Strip) (c : ℚ) : ℚ :=
  s.fy * s.w * (lenAbove s.y0 s.y1 c - lenBelow s.y0 s.y1 c)

/-- Contribution of one strip to the plastic section modulus
S_plastic = fy * A * |lever arm| summed over both sides. -/
def stripModulus (s : Strip) (c : ℚ) : ℚ :=
  s.fy * s.w * (momAbove s.y0 s.y1 c + momBelow s.y0 s.y1 c)

/-- The residual R(c) of a mesh (list of strips): its root is the
plastic centroid (spec section 4.3). -/
def plasticResidual (l : List Strip) (c : ℚ) : ℚ :=
  (l.map (fun s => stripResidual s c)).sum

/-- The plastic section modulus of a mesh evaluated at a trial axis. -/
def plasticModulus (l : List Strip) (c : ℚ) : ℚ :=
  (l.map (fun s => stripModulus s c)).sum

/-- A chain of strips partitioning one strip of the geometry: the strip
is repeatedly split at interior ordinates, keeping width and material. -/
inductive StripChain : Strip → List Strip → Prop
  | single (s : Strip) : StripChain s [s]
  | split (s : Strip) (t : ℚ) (l : List Strip) :
      StripChain { s with y0 := t } l →
      StripChain s ({ s with y1 := t } :: l)

/-- A valid mesh of a geometry: every strip of the geometry is
partitioned into a chain of element strips. -/
inductive MeshOf : List Strip → List Strip → Prop
  | nil : MeshOf [] []
  | cons {s : Strip} {cs l m : List Strip} :
      StripChain s cs → MeshOf l m → MeshOf (s :: l) (cs ++ m)

/-- Stress recovery is linear in the load case at every evaluation
point: the governing formulas of section 4.4 are linear in the six
generalized actions. -/
theorem nodeStress_add (s : SectionState) (a b : LoadCase) (mat : Material)
    (p : ℚ × ℚ) (g : WarpGrad) :
    addStress (nodeStress s a mat p g) (nodeStress s b mat p g)
      = nodeStress s (addLoad a b) mat p g := by
  simp only [addStress, nodeStress, addLoad, StressRec.mk.injEq]
  refine ⟨by ring, by ring, by ring⟩

/-- Zipping two maps over the same list combines them pointwise. -/
theorem zipWith_map_same {α β γ δ : Type} (f : β → γ → δ) (g : α → β)
    (h : α → γ) : ∀ l : List α,
    List.zipWith f (l.map g) (l.map h) = l.map (fun x => f (g x) (h x))
  | [] => rfl
  | x :: xs => by
      simp only [List.map_cons, List.zipWith_cons_cons,
        zipWith_map_same f g h xs]

/-- Per-node addition of two stress fields gives the stress field of the
summed load case. -/
theorem stressField_add (s : SectionState) (a b : LoadCase) :
    List.zipWith addStress (stressField s a) (stressField s b)
      = stressField s (addLoad a b) := by
  simp only [stressField, zipWith_map_same]
  exact List.map_congr_left (fun mi _ =>
    nodeStress_add s a b mi.1 (s.mesh.node mi.2) (s.warpSol.grad mi.2))

/-- Splitting a strip at any ordinate preserves its residual
contribution. -/
theorem stripResidual_split (s : Strip) (t c : ℚ) :
    stripResidual s c
      = stripResidual { s with y1 := t } c
        + stripResidual { s with y0 := t } c := by
  simp only [stripResidual, lenAbove, lenBelow]
  ring

/-- Splitting a strip at any ordinate preserves its modulus
contribution. -/
theorem stripModulus_split (s : Strip) (t c : ℚ) :
    stripModulus s c
      = stripModulus { s with y1 := t } c
        + stripModulus { s with y0 := t } c := by
  simp only [stripModulus, momAbove, momBelow]
  ring

/-- The residual of a chain partitioning a strip equals the strip's own
residual contribution. -/
theorem plasticResidual_chain {s : Strip} {cs : List Strip}
    (h : StripChain s cs) (c : ℚ) :
    plasticResidual cs c = stripResidual s c := by
  induction h with
  | single s => simp [plasticResidual]
  | split s t l _ ih =>
      simp only [plasticResidual, List.map_cons, List.sum_cons] at *
      rw [ih, stripResidual_split s t c]

/-- The modulus of a chain partitioning a strip equals the strip's own
modulus contribution. -/
theorem plasticModulus_chain {s : Strip} {cs : List Strip}
    (h : StripChain s cs) (c : ℚ) :
    plasticModulus cs c = stripModulus s c := by
  induction h with
  | single s => simp [plasticModulus]
  | split s t l _ ih =>
      simp only [plasticModulus, List.map_cons, List.sum_cons] at *
      rw [ih, stripModulus_split s t c]

/-- The residual of any valid mesh of a geometry equals the residual of
the geometry itself. -/
theorem plasticResidual_meshOf {g m : List Strip} (h : MeshOf g m)
    (c : ℚ) : plasticResidual m c = plasticResidual g c := by
  induction h with
  | nil => rfl
  | cons hc _ ih =>
      simp only [plasticResidual, List.map_append, List.sum_append,
        List.map_cons, List.sum_cons] at *
      rw [ih]
      have hch := plasticResidual_chain hc c
      simp only [plasticResidual] at hch
      rw [hch]

/-- The modulus of any valid mesh of a geometry equals the modulus of
the geometry itself. -/
theorem plasticModulus_meshOf {g m : List Strip} (h : MeshOf g m)
    (c : ℚ) : plasticModulus m c = plasticModulus g c := by
  induction h with
  | nil => rfl
  | cons hc _ ih =>
      simp only [plasticModulus, List.map_append, List.sum_append,
        List.map_cons, List.sum_cons] at *
      rw [ih]
      have hch := plasticModulus_chain hc c
      simp only [plasticModulus] at hch
      rw [hch]

/-- The steel material of the notebooks (E = 200e3, nu = 0.3,
rho = 7.85e-6, fy = 500). -/
def steel : Material :=
  { name := "Steel", elastic_modulus := 200000, nu := 3 / 10,
    density := 785 / 100000000, yield_strength := 500, color := "grey" }

/-- The timber material of composite_analysis.ipynb (E = 8e3,
nu = 0.35, rho = 0.78e-6, fy = 20). -/
def timber : Material :=
  { name := "Timber", elastic_modulus := 8000, nu := 7 / 20,
    density := 78 / 100000000, yield_strength := 20, color := "burlywood" }

/-- Nodes of a unit-square test mesh. -/
def sqNodes : List (ℚ × ℚ) := [(0, 0), (1, 0), (1, 1), (0, 1)]

/-- Unit-square mesh of two triangles, default material everywhere
(the geometric-only rectangle of composite_analysis cells 3-6). -/
def sqMeshD : Mesh :=
  { nodes := sqNodes,
    elements := [⟨0, 1, 2, DEFAULT_MATERIAL⟩, ⟨0, 2, 3, DEFAULT_MATERIAL⟩] }

/-- The same mesh with steel assigned everywhere (composite_analysis
cells 8-10: a single non-default material). -/
def sqMeshS : Mesh :=
  { nodes := sqNodes, elements := [⟨0, 1, 2, steel⟩, ⟨0, 2, 3, steel⟩] }

/-- A concrete warping solution cache for the test sections. -/
def warp1 : WarpSol :=
  { j := 1, deltaS := 1,
    grads := [⟨1, 0, 1, 0, 0, 1⟩, ⟨0, 1, 0, 1, 1, 0⟩,
      ⟨1, 1, 1, 1, 1, 1⟩, ⟨2, 1, 0, 1, 0, 1⟩] }

/-- Freshly constructed (pre-geometric) default-material section. -/
def secD0 : SectionState := { mesh := sqMeshD, warpSol := warp1 }

/-- Default-material section after the geometric stage. -/
def secD : SectionState := calculate_geometric_properties secD0

/-- Steel section after the geometric stage. -/
def secS : SectionState :=
  calculate_geometric_properties { mesh := sqMeshS, warpSol := warp1 }

/-- Default-material section after geometric and warping stages. -/
def secDW : SectionState := (calculate_warping_properties secD).2

/-- Steel is not the default material (the names differ). -/
theorem steel_ne_default : steel ≠ DEFAULT_MATERIAL := fun h =>
  absurd (congrArg Material.name h) (by decide)

/-- The all-steel unit-square mesh counts as composite. -/
theorem sqMeshS_composite : is_composite sqMeshS = true := by
  simp [is_composite, sqMeshS, steel_ne_default]

/-- C1 counterexample: the unit-square section whose elements all carry
the one single material steel is nevertheless composite, and its plain
geometric query is refused — refuting "for every Section whose elements
all carry one single material, the Section is not composite and
geometric-only property queries are permitted"
(composite_analysis.ipynb cells 8-10, the cell tagged
raises-exception). -/
theorem C1_single_material_composite_counterexample :
    (∀ e ∈ sqMeshS.elements, e.material = steel) ∧
    is_composite sqMeshS = true ∧
    get_ic secS = Except.error SPError.compositeAmbiguityError := by
  refine ⟨?_, sqMeshS_composite, ?_⟩
  · intro e he
    simp only [sqMeshS, List.mem_cons, List.not_mem_nil, or_false] at he
    rcases he with h | h <;> subst h <;> rfl
  · simp [get_ic, secS, calculate_geometric_properties, sqMeshS_composite]

/-- C1 amended: a Section is composite iff at least one of its elements
carries a material other than the default material; for every Section
whose elements all carry the default material, the Section is not
composite and geometric-only (unweighted) property queries are
permitted. -/
theorem C1_composite_invariant (s : SectionState)
    (h : s.geometricDone = true) :
    (is_composite s.mesh = true ↔
      ∃ e ∈ s.mesh.elements, e.material ≠ DEFAULT_MATERIAL) ∧
    ((∀ e ∈ s.mesh.elements, e.material = DEFAULT_MATERIAL) →
      is_composite s.mesh = false ∧
      get_ic s
        = Except.ok (s.mesh.eixxC, s.mesh.eiyyC, s.mesh.eixyC)) := by
  constructor
  · simp [is_composite, List.any_eq_true]
  · intro hall
    have hnc : is_composite s.mesh = false := by
      simp only [is_composite, List.any_eq_false, decide_not]
      intro e he
      simp [hall e he]
    exact ⟨hnc, by simp [get_ic, h, hnc]⟩

/-- C1 witness: the amended invariant instantiated at the
default-material unit-square section after its geometric analysis. -/
theorem C1_composite_invariant_witness :
    secD.geometricDone = true ∧
    ((is_composite secD.mesh = true ↔
        ∃ e ∈ secD.mesh.elements, e.material ≠ DEFAULT_MATERIAL) ∧
      ((∀ e ∈ secD.mesh.elements, e.material = DEFAULT_MATERIAL) →
        is_composite secD.mesh = false ∧
        get_ic secD
          = Except.ok (secD.mesh.eixxC, secD.mesh.eiyyC, secD.mesh.eixyC))) :=
  ⟨rfl, C1_composite_invariant secD rfl⟩

/-- C2: on a composite Section the plain accessor get_ic fails with the
dedicated composite-ambiguity error while the weighted accessor get_eic
succeeds on the same Section; on a non-composite Section the plain
accessor succeeds (after the geometric stage). -/
theorem C2_composite_accessor_gate (s : SectionState)
    (h : s.geometricDone = true) :
    (is_composite s.mesh = true →
      get_ic s = Except.error SPError.compositeAmbiguityError ∧
      get_eic s
        = Except.ok (s.mesh.eixxC, s.mesh.eiyyC, s.mesh.eixyC)) ∧
    (is_composite s.mesh = false →
      get_ic s
        = Except.ok (s.mesh.eixxC, s.mesh.eiyyC, s.mesh.eixyC)) := by
  constructor <;> intro hc <;>
    simp [get_ic, get_eic, h, hc]

/-- C2 witness: the accessor gate instantiated at the steel (composite)
unit-square section after its geometric analysis. -/
theorem C2_composite_accessor_gate_witness :
    secS.geometricDone = true ∧
    ((is_composite secS.mesh = true →
        get_ic secS = Except.error SPError.compositeAmbiguityError ∧
        get_eic secS
          = Except.ok (secS.mesh.eixxC, secS.mesh.eiyyC, secS.mesh.eixyC)) ∧
      (is_composite secS.mesh = false →
        get_ic secS
          = Except.ok (secS.mesh.eixxC, secS.mesh.eiyyC, secS.mesh.eixyC))) :=
  ⟨rfl, C2_composite_accessor_gate secS rfl⟩

/-- C3: on a pre-geometric Section, calculate_plastic_properties and
likewise calculate_warping_properties raise the ordering error and leave
the Section unchanged; after calculate_geometric_properties has
completed, the same plastic (and warping) call succeeds
(assign_materials.ipynb, plastic-analysis cells 6-9). -/
theorem C3_plastic_ordering (s : SectionState)
    (h : s.geometricDone = false) :
    calculate_plastic_properties s = (Except.error SPError.orderingError, s) ∧
    calculate_warping_properties s = (Except.error SPError.orderingError, s) ∧
    (calculate_plastic_properties (calculate_geometric_properties s)).1
      = Except.ok () ∧
    (calculate_warping_properties (calculate_geometric_properties s)).1
      = Except.ok () := by
  refine ⟨?_, ?_, ?_, ?_⟩ <;>
    simp [calculate_plastic_properties, calculate_warping_properties,
      calculate_geometric_properties, h]

/-- C3 witness: the ordering error instantiated at the freshly
constructed default-material section. -/
theorem C3_plastic_ordering_witness :
    secD0.geometricDone = false ∧
    (calculate_plastic_properties secD0
        = (Except.error SPError.orderingError, secD0) ∧
      calculate_warping_properties secD0
        = (Except.error SPError.orderingError, secD0) ∧
      (calculate_plastic_properties (calculate_geometric_properties secD0)).1
        = Except.ok () ∧
      (calculate_warping_properties (calculate_geometric_properties secD0)).1
        = Except.ok ()) :=
  ⟨rfl, C3_plastic_ordering secD0 rfl⟩

/-- C4: with the geometric stage complete, a load case with any of vx,
vy, mzz nonzero makes calculate_stress and get_stress_at_points raise
the ordering error unless the warping stage has completed (in which case
they succeed), whereas a load case containing only n, mxx, myy succeeds
without any warping analysis. -/
theorem C4_stress_warping_gate (s : SectionState) (lc : LoadCase)
    (pts : List (ℚ × ℚ)) (h : s.geometricDone = true) :
    ((lc.vx ≠ 0 ∨ lc.vy ≠ 0 ∨ lc.mzz ≠ 0) →
      (s.warpingDone = false →
        calculate_stress s lc = Except.error SPError.orderingError ∧
        get_stress_at_points s pts lc
          = Except.error SPError.orderingError) ∧
      (s.warpingDone = true →
        calculate_stress s lc = Except.ok (stressField s lc) ∧
        get_stress_at_points s pts lc
          = Except.ok (pts.map (samplePoint s lc)))) ∧
    (lc.vx = 0 ∧ lc.vy = 0 ∧ lc.mzz = 0 →
      calculate_stress s lc = Except.ok (stressField s lc) ∧
      get_stress_at_points s pts lc
        = Except.ok (pts.map (samplePoint s lc))) := by
  constructor
  · intro hv
    have hr : requiresWarping lc = true := by
      simp only [requiresWarping, Bool.or_eq_true, decide_eq_true_eq]
      tauto
    constructor <;> intro hw <;> constructor <;>
      simp [calculate_stress, get_stress_at_points, h, hr, hw]
  · rintro ⟨h1, h2, h3⟩
    have hr : requiresWarping lc = false := by
      simp [requiresWarping, h1, h2, h3]
    constructor <;>
      simp [calculate_stress, get_stress_at_points, h, hr]

/-- C4 witness: the warping gate instantiated at the steel section
(warping not yet run) with a pure-torsion load case and one query
point. -/
theorem C4_stress_warping_gate_witness :
    secS.geometricDone = true ∧
    ((({ mzz := 1 : LoadCase }).vx ≠ 0 ∨ ({ mzz := 1 : LoadCase }).vy ≠ 0
        ∨ ({ mzz := 1 : LoadCase }).mzz ≠ 0) →
      (secS.warpingDone = false →
        calculate_stress secS { mzz := 1 }
          = Except.error SPError.orderingError ∧
        get_stress_at_points secS [(0, 0)] { mzz := 1 }
          = Except.error SPError.orderingError) ∧
      (secS.warpingDone = true →
        calculate_stress secS { mzz := 1 }
          = Except.ok (stressField secS { mzz := 1 }) ∧
        get_stress_at_points secS [(0, 0)] { mzz := 1 }
          = Except.ok ([(0, 0)].map (samplePoint secS { mzz := 1 })))) ∧
    (({ mzz := 1 : LoadCase }).vx = 0 ∧ ({ mzz := 1 : LoadCase }).vy = 0
        ∧ ({ mzz := 1 : LoadCase }).mzz = 0 →
      calculate_stress secS { mzz := 1 }
        = Except.ok (stressField secS { mzz := 1 }) ∧
      get_stress_at_points secS [(0, 0)] { mzz := 1 }
        = Except.ok ([(0, 0)].map (samplePoint secS { mzz := 1 }))) :=
  ⟨rfl, C4_stress_warping_gate secS { mzz := 1 } [(0, 0)] rfl⟩

/-- C5: with the stage preconditions met, get_stress_at_points returns
one result per query point (the pointwise sample map); a point lying
strictly outside every element samples to null with no error raised,
and a point inside some element receives a stress tuple. -/
theorem C5_out_of_domain_sampling (s : SectionState)
    (pts : List (ℚ × ℚ)) (lc : LoadCase) (p : ℚ × ℚ)
    (h : s.geometricDone = true)
    (hw : requiresWarping lc = false ∨ s.warpingDone = true) :
    get_stress_at_points s pts lc
      = Except.ok (pts.map (samplePoint s lc)) ∧
    (pts.map (samplePoint s lc)).length = pts.length ∧
    ((∀ e ∈ s.mesh.elements, s.mesh.containsPoint e p = false) →
      samplePoint s lc p = none) ∧
    ((∃ e ∈ s.mesh.elements, s.mesh.containsPoint e p = true) →
      (samplePoint s lc p).isSome = true) := by
  refine ⟨?_, List.length_map _ _, ?_, ?_⟩
  · rcases hw with hw | hw <;>
      simp [get_stress_at_points, h, hw]
  · intro hout
    have : s.mesh.elements.find? (fun e => s.mesh.containsPoint e p)
        = none := by
      rw [List.find?_eq_none]
      intro e he
      simp [hout e he]
    simp [samplePoint, this]
  · intro hin
    have : (s.mesh.elements.find?
        (fun e => s.mesh.containsPoint e p)).isSome = true := by
      rw [List.find?_isSome]
      rcases hin with ⟨e, he, hc⟩
      exact ⟨e, he, by simp [hc]⟩
    rcases Option.isSome_iff_exists.mp this with ⟨e, he⟩
    simp [samplePoint, he]

/-- C5 witness: pointwise sampling instantiated at the default section
after geometric and warping analyses, a bending-only load case, and the
out-of-mesh query point (5, 5). -/
theorem C5_out_of_domain_sampling_witness :
    secDW.geometricDone = true ∧
    (requiresWarping { mxx := 1 } = false ∨ secDW.warpingDone = true) ∧
    (get_stress_at_points secDW [(5, 5), (1/2, 1/4)] { mxx := 1 }
        = Except.ok ([(5, 5), (1/2, 1/4)].map
            (samplePoint secDW { mxx := 1 })) ∧
      ([(5, 5), (1/2, 1/4)].map
          (samplePoint secDW { mxx := 1 })).length
        = [((5 : ℚ), (5 : ℚ)), (1/2, 1/4)].length ∧
      ((∀ e ∈ secDW.mesh.elements,
          secDW.mesh.containsPoint e (5, 5) = false) →
        samplePoint secDW { mxx := 1 } (5, 5) = none) ∧
      ((∃ e ∈ secDW.mesh.elements,
          secDW.mesh.containsPoint e (5, 5) = true) →
        (samplePoint secDW { mxx := 1 } (5, 5)).isSome = true)) :=
  ⟨rfl, Or.inl rfl,
    C5_out_of_domain_sampling secDW [(5, 5), (1/2, 1/4)] { mxx := 1 }
      (5, 5) rfl (Or.inl rfl)⟩

/-- C6: after the geometric stage, get_eic with a reference material
returns exactly the plain weighted triple divided componentwise by the
reference elastic modulus, and this succeeds for every Section whether
composite or not. -/
theorem C6_reference_modulus_transform (s : SectionState)
    (eRef : Material) (h : s.geometricDone = true) :
    ∃ exx eyy exy,
      get_eic s = Except.ok (exx, eyy, exy) ∧
      get_eic_ref s eRef
        = Except.ok (exx / eRef.elastic_modulus,
            eyy / eRef.elastic_modulus, exy / eRef.elastic_modulus) := by
  refine ⟨s.mesh.eixxC, s.mesh.eiyyC, s.mesh.eixyC, ?_, ?_⟩ <;>
    simp [get_eic, get_eic_ref, h]

/-- C6 witness: the reference-modulus transform instantiated at the
composite steel section with steel as the reference material
(composite_analysis cell 12). -/
theorem C6_reference_modulus_transform_witness :
    secS.geometricDone = true ∧
    ∃ exx eyy exy,
      get_eic secS = Except.ok (exx, eyy, exy) ∧
      get_eic_ref secS steel
        = Except.ok (exx / steel.elastic_modulus,
            eyy / steel.elastic_modulus, exy / steel.elastic_modulus) :=
  ⟨rfl, C6_reference_modulus_transform secS steel rfl⟩

/-- C7: stress results superpose linearly — with geometric and warping
stages complete, calculate_stress succeeds on two load cases and on
their sum, and the per-node componentwise sum of the two stress fields
is exactly the stress field of the summed load case. -/
theorem C7_stress_superposition (s : SectionState) (a b : LoadCase)
    (hg : s.geometricDone = true) (hw : s.warpingDone = true) :
    calculate_stress s a = Except.ok (stressField s a) ∧
    calculate_stress s b = Except.ok (stressField s b) ∧
    calculate_stress s (addLoad a b)
      = Except.ok (List.zipWith addStress (stressField s a)
          (stressField s b)) := by
  refine ⟨?_, ?_, ?_⟩ <;>
    simp [calculate_stress, hg, hw, stressField_add]

/-- C7 witness: superposition instantiated at the default section after
geometric and warping analyses, for a bending load case and a shear
load case. -/
theorem C7_stress_superposition_witness :
    secDW.geometricDone = true ∧ secDW.warpingDone = true ∧
    (calculate_stress secDW { mxx := 3 }
        = Except.ok (stressField secDW { mxx := 3 }) ∧
      calculate_stress secDW { vx := 5 }
        = Except.ok (stressField secDW { vx := 5 }) ∧
      calculate_stress secDW (addLoad { mxx := 3 } { vx := 5 })
        = Except.ok (List.zipWith addStress
            (stressField secDW { mxx := 3 })
            (stressField secDW { vx := 5 }))) :=
  ⟨rfl, rfl, C7_stress_superposition secDW { mxx := 3 } { vx := 5 } rfl rfl⟩

/-- The rotated-squares input of advanced_geometry cells 29-34: two
squares separated by a floating-point-sized gap after rotation, i.e.
near-degenerate input. -/
def rotatedSquares : GeomInput :=
  { geomMesh := sqMeshD, nearDegenerate := true }

/-- C8 counterexample: the near-degenerate rotated-squares geometry
crashes the meshing step uncontrolled ("this may crash the kernel",
advanced_geometry cell 33) instead of surfacing as a mesh-validity
error — refuting "every such violation surfaces as a mesh-validity
error to the caller rather than an uncontrolled failure of the meshing
step". -/
theorem C8_validation_counterexample :
    create_mesh rotatedSquares = MeshOutcome.kernelCrash ∧
    create_mesh rotatedSquares ≠ MeshOutcome.err SPError.meshValidityError := by
  refine ⟨rfl, ?_⟩
  simp [create_mesh, cyTriangle, rotatedSquares]

/-- C8 amended: no minimum-feature-separation validation runs before
delegating to the external triangulator — near-degenerate input reaches
the mesher unchecked and fails as an uncontrolled crash, never as a
pre-flight mesh-validity error; the caller must ensure geometry
validity (advanced_geometry cells 1 and 28-39). -/
theorem C8_no_preflight_validation (g : GeomInput)
    (h : g.nearDegenerate = true) :
    create_mesh g = MeshOutcome.kernelCrash ∧
    ∀ g2 : GeomInput,
      create_mesh g2 ≠ MeshOutcome.err SPError.meshValidityError := by
  constructor
  · simp [create_mesh, cyTriangle, h]
  · intro g2
    cases hg : g2.nearDegenerate <;> simp [create_mesh, cyTriangle, hg]

/-- C8 witness: the amended statement instantiated at the
rotated-squares input. -/
theorem C8_no_preflight_validation_witness :
    rotatedSquares.nearDegenerate = true ∧
    (create_mesh rotatedSquares = MeshOutcome.kernelCrash ∧
      ∀ g2 : GeomInput,
        create_mesh g2 ≠ MeshOutcome.err SPError.meshValidityError) :=
  ⟨rfl, C8_no_preflight_validation rotatedSquares rfl⟩

/-- C9: when two geometries with different materials overlap, the union
combinator gives the overlap region the first operand's material —
whichever geometry comes first has its attributes preserved, not any
implicit z-order (advanced_geometry cells 14-15). -/
theorem C9_union_first_operand_wins (g1 g2 : Geometry) (p : ℚ × ℚ)
    (h1 : g1.covers p = true) (h2 : g2.covers p = true) :
    materialAt (geoUnion g1 g2) p = some g1.material ∧
    materialAt (geoUnion g2 g1) p = some g2.material := by
  have key : ∀ a b : Geometry, a.covers p = true →
      materialAt (geoUnion a b) p = some a.material := by
    intro a b ha
    have hcov : (geoUnion a b).covers p = true := by
      simp only [Geometry.covers, geoUnion, List.any_append,
        Bool.or_eq_true]
      exact Or.inl ha
    unfold materialAt
    rw [if_pos hcov]
    rfl
  exact ⟨key g1 g2 h1, key g2 g1 h2⟩

/-- A big triangle region carrying steel. -/
def geomA : Geometry :=
  { region := [{ a := (0, 0), b := (4, 0), c := (0, 4) }],
    material := steel }

/-- A small overlapping triangle region carrying timber. -/
def geomB : Geometry :=
  { region := [{ a := (0, 0), b := (2, 0), c := (0, 2) }],
    material := timber }

/-- The steel triangle covers the point (1, 1). -/
theorem geomA_covers : geomA.covers (1, 1) = true := by
  simp only [Geometry.covers, geomA, Tri.holds, cross2, List.any_cons,
    List.any_nil, Bool.or_false, Bool.or_eq_true, Bool.and_eq_true,
    decide_eq_true_eq]
  norm_num

/-- The timber triangle also covers the point (1, 1). -/
theorem geomB_covers : geomB.covers (1, 1) = true := by
  simp only [Geometry.covers, geomB, Tri.holds, cross2, List.any_cons,
    List.any_nil, Bool.or_false, Bool.or_eq_true, Bool.and_eq_true,
    decide_eq_true_eq]
  norm_num

/-- C9 witness: the first-operand rule instantiated at the overlapping
steel and timber triangles at their common point (1, 1). -/
theorem C9_union_first_operand_wins_witness :
    geomA.covers (1, 1) = true ∧ geomB.covers (1, 1) = true ∧
    (materialAt (geoUnion geomA geomB) (1, 1) = some geomA.material ∧
      materialAt (geoUnion geomB geomA) (1, 1) = some geomB.material) :=
  ⟨geomA_covers, geomB_covers,
    C9_union_first_operand_wins geomA geomB (1, 1) geomA_covers geomB_covers⟩

/-- C10: plastic analysis is mesh independent — for one fixed geometry
(strip decomposition) and any two valid meshes of it, the plastic
residual R and the plastic modulus S agree at every trial axis, so the
root-found plastic centroid and the reported plastic section moduli
coincide ("plastic analyses in sectionproperties are mesh independent",
assign_materials.ipynb plastic-analysis cell 4). -/
theorem C10_plastic_mesh_independence {g m1 m2 : List Strip} (c : ℚ)
    (h1 : MeshOf g m1) (h2 : MeshOf g m2) :
    plasticResidual m1 c = plasticResidual m2 c ∧
    plasticModulus m1 c = plasticModulus m2 c ∧
    (plasticResidual m1 c = 0 ↔ plasticResidual m2 c = 0) := by
  have hr := (plasticResidual_meshOf h1 c).trans
    (plasticResidual_meshOf h2 c).symm
  have hm := (plasticModulus_meshOf h1 c).trans
    (plasticModulus_meshOf h2 c).symm
  exact ⟨hr, hm, by rw [hr]⟩

/-- A one-strip geometry spanning [0, 2]. -/
def strip0 : Strip := { y0 := 0, y1 := 2, w := 1, fy := 1 }

/-- A coarse mesh of strip0: split at 1. -/
def stripM1 : List Strip :=
  [{ y0 := 0, y1 := 1, w := 1, fy := 1 },
   { y0 := 1, y1 := 2, w := 1, fy := 1 }]

/-- A different mesh of strip0: split at 1/2. -/
def stripM2 : List Strip :=
  [{ y0 := 0, y1 := 1 / 2, w := 1, fy := 1 },
   { y0 := 1 / 2, y1 := 2, w := 1, fy := 1 }]

/-- stripM1 is a valid mesh of the one-strip geometry. -/
theorem stripM1_meshOf : MeshOf [strip0] stripM1 :=
  MeshOf.cons
    (StripChain.split strip0 1 _
      (StripChain.single { strip0 with y0 := 1 }))
    MeshOf.nil

/-- stripM2 is a valid mesh of the one-strip geometry. -/
theorem stripM2_meshOf : MeshOf [strip0] stripM2 :=
  MeshOf.cons
    (StripChain.split strip0 (1 / 2) _
      (StripChain.single { strip0 with y0 := 1 / 2 }))
    MeshOf.nil

/-- C10 witness: mesh independence instantiated at the two concrete
meshes of the one-strip geometry, at trial axis 3/4. -/
theorem C10_plastic_mesh_independence_witness :
    plasticResidual stripM1 (3 / 4) = plasticResidual stripM2 (3 / 4) ∧
    plasticModulus stripM1 (3 / 4) = plasticModulus stripM2 (3 / 4) ∧
    (plasticResidual stripM1 (3 / 4) = 0 ↔
      plasticResidual stripM2 (3 / 4) = 0) :=
  C10_plastic_mesh_independence (3 / 4) stripM1_meshOf stripM2_meshOf
